import Mathlib

/-!
Verification development for the reference_agent repository.

The Python sources (agent.py, app.py, 1.py, utils.py) are embedded shallowly:
Python strings become lists of characters, floats become exact rationals,
effectful collaborator calls (arXiv search, language-model calls, downloads)
become explicit function or `Except` parameters.
-/

namespace RefAgent

/-- Characters of a Python string, modelled as a list of characters. -/
abbrev Str := List Char

/-- Python whitespace (the `\s` class over the ASCII range). -/
def isSpaceChar (c : Char) : Bool :=
  c = ' ' || c = '\t' || c = '\n' || c = '\r' || c = '\x0b' || c = '\x0c'

/-- Python `str.lower()`, modelled characterwise (ASCII case mapping). -/
def lowerStr (s : Str) : Str := s.map Char.toLower

/-!
## difflib.SequenceMatcher(None, a, b).ratio()

All call sites construct `SequenceMatcher(None, a, b)`, so the junk set is
empty; the autojunk rule still prunes popular elements from the `b2j` index
when `len(b) >= 200`.
-/

/-- Indices at which character `c` occurs in `b` (ascending). -/
def occList (b : Str) (c : Char) : List Nat :=
  (List.range b.length).filter (fun j => b.getD j ' ' = c)

/-- The `b2j` index with the autojunk rule: for `len(b) >= 200`, characters
occurring more than `len(b) // 100 + 1` times are dropped. -/
def b2j (b : Str) (c : Char) : List Nat :=
  let idxs := occList b c
  if 200 ≤ b.length ∧ b.length / 100 + 1 < idxs.length then [] else idxs

/-- Inner step of `find_longest_match`: process one index `j` of `b` that
matches `a[i]`.  State: current best block `(besti, bestj, bestsize)` and the
`newj2len` association list being built; `j2len` is the previous row. -/
def flmInner (i : Nat) (j2len : List (Nat × Nat))
    (st : (Nat × Nat × Nat) × List (Nat × Nat)) (j : Nat) :
    (Nat × Nat × Nat) × List (Nat × Nat) :=
  let k := if j = 0 then 1 else ((j2len.lookup (j - 1)).getD 0) + 1
  let best := if st.1.2.2 < k then (i + 1 - k, j + 1 - k, k) else st.1
  (best, (j, k) :: st.2)

/-- Outer step of `find_longest_match` (one index `i` of `a`). -/
def flmStep (a b : Str) (blo bhi : Nat)
    (st : (Nat × Nat × Nat) × List (Nat × Nat)) (i : Nat) :
    (Nat × Nat × Nat) × List (Nat × Nat) :=
  let js := (b2j b (a.getD i ' ')).filter (fun j => blo ≤ j ∧ j < bhi)
  js.foldl (flmInner i st.2) (st.1, [])

/-- Extend the best block to the left while the previous characters match
(with `isjunk = None` the junk set is empty, so the junk-extension loops of
the original are no-ops and the non-junk condition is trivially true). -/
def extLeft (a b : Str) (alo blo : Nat) : Nat → Nat → Nat → Nat × Nat × Nat
  | 0, bestj, bestsize => (0, bestj, bestsize)
  | bi + 1, bestj, bestsize =>
    match bestj with
    | 0 => (bi + 1, 0, bestsize)
    | bj + 1 =>
      if alo ≤ bi ∧ blo ≤ bj ∧ a.getD bi ' ' = b.getD bj ' ' then
        extLeft a b alo blo bi bj (bestsize + 1)
      else (bi + 1, bj + 1, bestsize)

/-- Extend the best block to the right while the following characters match.
The first argument is fuel bounding the loop (`ahi` always suffices). -/
def extRight (a b : Str) (ahi bhi besti bestj : Nat) : Nat → Nat → Nat
  | 0, bestsize => bestsize
  | fuel + 1, bestsize =>
    if besti + bestsize < ahi ∧ bestj + bestsize < bhi ∧
        a.getD (besti + bestsize) ' ' = b.getD (bestj + bestsize) ' ' then
      extRight a b ahi bhi besti bestj fuel (bestsize + 1)
    else bestsize

/-- `find_longest_match(alo, ahi, blo, bhi)`. -/
def findLongestMatch (a b : Str) (alo ahi blo bhi : Nat) : Nat × Nat × Nat :=
  let core := ((List.range (ahi - alo)).map (fun d => alo + d)).foldl
      (flmStep a b blo bhi) ((alo, blo, 0), [])
  let r1 := extLeft a b alo blo core.1.1 core.1.2.1 core.1.2.2
  let bs := extRight a b ahi bhi r1.1 r1.2.1 ahi r1.2.2
  (r1.1, r1.2.1, bs)

/-- Total size of all matching blocks (the `matches` count that `ratio()`
divides), computed by the recursive region splitting of
`get_matching_blocks`.  The fuel argument only bounds recursion depth;
`a.length + b.length + 1` always suffices because each split with a non-empty
block strictly shrinks the region. -/
def matchTotalAux (a b : Str) : Nat → Nat → Nat → Nat → Nat → Nat
  | 0, _, _, _, _ => 0
  | fuel + 1, alo, ahi, blo, bhi =>
    let r := findLongestMatch a b alo ahi blo bhi
    if r.2.2 = 0 then 0
    else matchTotalAux a b fuel alo r.1 blo r.2.1 + r.2.2 +
      matchTotalAux a b fuel (r.1 + r.2.2) ahi (r.2.1 + r.2.2) bhi

/-- The `matches` count of `SequenceMatcher(None, a, b)`. -/
def matchTotal (a b : Str) : Nat :=
  matchTotalAux a b (a.length + b.length + 1) 0 a.length 0 b.length

/-- `SequenceMatcher(None, a, b).ratio()` over exact rationals:
`2.0 * matches / (len(a) + len(b))`, and `1.0` for two empty strings. -/
def ratioVal (a b : Str) : ℚ :=
  if a.length + b.length = 0 then 1
  else 2 * (matchTotal a b : ℚ) / ((a.length : ℚ) + (b.length : ℚ))

/-!
## The title similarity scorer

`clean_title_for_comparison` and `is_similar` appear with identical bodies in
agent.py (returning only the boolean) and in app.py and 1.py (returning the
pair `(bool, max_similarity)`).
-/

/-- Python `\w` word character (`[A-Za-z0-9_]` over the ASCII range). -/
def isWordChar (c : Char) : Bool := c.isAlphanum || c = '_'

/-- Python `str.strip()` (whitespace removed from both ends). -/
def stripWS (s : Str) : Str :=
  ((s.dropWhile (fun c => isSpaceChar c)).reverse.dropWhile (fun c => isSpaceChar c)).reverse

/-- Helper for `collapseWS`: the flag records whether the previous character
was whitespace (so the current run is already represented). -/
def collapseWSAux : Bool → Str → Str
  | _, [] => []
  | prevWS, c :: rest =>
    if isSpaceChar c then
      if prevWS then collapseWSAux true rest
      else ' ' :: collapseWSAux true rest
    else c :: collapseWSAux false rest

/-- `re.sub(r'\s+', ' ', s)`: collapse every whitespace run to one space. -/
def collapseWS (s : Str) : Str := collapseWSAux false s

/-- `clean_title_for_comparison(title)`: lowercase, replace every character
that is neither a word character nor whitespace with a space
(`re.sub(r'[^\w\s]', ' ', ...)`), collapse whitespace runs, strip. -/
def clean_title_for_comparison (title : Str) : Str :=
  let lowered := lowerStr title
  let repl := lowered.map (fun c => if isWordChar c || isSpaceChar c then c else ' ')
  stripWS (collapseWS repl)

/-- Helper for `splitWS`, carrying the current (reversed) token. -/
def splitWSAux : Str → Str → List Str
  | cur, [] => if cur.isEmpty then [] else [cur.reverse]
  | cur, c :: rest =>
    if isSpaceChar c then
      if cur.isEmpty then splitWSAux [] rest else cur.reverse :: splitWSAux [] rest
    else splitWSAux (c :: cur) rest

/-- Python `str.split()` with no argument: split on whitespace runs,
dropping empty tokens. -/
def splitWS (s : Str) : List Str := splitWSAux [] s

/-- The set of words of a cleaned title (`set(clean_title.split())`). -/
def wordsOf (t : Str) : Finset (List Char) :=
  (splitWS (clean_title_for_comparison t)).toFinset

/-- The keyword-overlap signal of `is_similar`: Jaccard overlap of the word
sets, `0` when either set is empty. -/
def word_overlap (t1 t2 : Str) : ℚ :=
  if 0 < (wordsOf t1).card ∧ 0 < (wordsOf t2).card then
    (((wordsOf t1) ∩ (wordsOf t2)).card : ℚ) / (((wordsOf t1) ∪ (wordsOf t2)).card : ℚ)
  else 0

/-- The blended score `max(similarity1, similarity2, word_overlap)` computed
identically inside every `is_similar` variant. -/
def max_similarity (title1 title2 : Str) : ℚ :=
  let similarity1 := ratioVal (lowerStr title1) (lowerStr title2)
  let similarity2 :=
    ratioVal (clean_title_for_comparison title1) (clean_title_for_comparison title2)
  max similarity1 (max similarity2 (word_overlap title1 title2))

/-- agent.py `is_similar(title1, title2, threshold=0.8)`: returns only the
boolean `max_similarity > threshold`. -/
def agent_is_similar (title1 title2 : Str) (threshold : ℚ) : Bool :=
  decide (threshold < max_similarity title1 title2)

/-- app.py `is_similar`: returns `(max_similarity > threshold, max_similarity)`. -/
def app_is_similar (title1 title2 : Str) (threshold : ℚ) : Bool × ℚ :=
  (decide (threshold < max_similarity title1 title2), max_similarity title1 title2)

/-- 1.py `is_similar` (verbatim duplicate of the app.py function). -/
def onepy_is_similar (title1 title2 : Str) (threshold : ℚ) : Bool × ℚ :=
  (decide (threshold < max_similarity title1 title2), max_similarity title1 title2)

/-!
## The external match resolver

app.py iterates arXiv search results in provider order and keeps the first
whose `is_similar` test (default threshold 0.8) passes, breaking out of the
loop; agent.py's `download_literatures` does the same but only stops once a
similar candidate also downloads successfully.
-/

/-- The app.py candidate loop: first candidate with
`is_similar(result.title, title)` wins. -/
def resolveFirstMatch : List Str → Str → Option Str
  | [], _ => none
  | r :: rs, title =>
    if (app_is_similar r title (4 / 5)).1 then some r else resolveFirstMatch rs title

/-- The agent.py download loop: a similar candidate is accepted only if its
download succeeds (`dl`); on failure the scan continues. -/
def downloadPick (dl : Str → Bool) : List Str → Str → Option Str
  | [], _ => none
  | r :: rs, title =>
    if agent_is_similar r title (4 / 5) then
      if dl r then some r else downloadPick dl rs title
    else downloadPick dl rs title

/-!
## The citation-marker extractor (utils.extract_citations_with_regex)

The two regex patterns, the 100-character context window, the sentence
narrowing, the sorted-tuple dedup and the min-key sort are modelled exactly.
-/

/-- Numeric value of a run of digits (`int(...)`). -/
def digitsToNat (ds : Str) : Nat :=
  ds.foldl (fun n c => n * 10 + (c.toNat - '0'.toNat)) 0

/-- Parse the `(?:\s*,\s*\d+)*` groups greedily; returns the parsed numbers
and the unconsumed rest.  A failed group consumes nothing.  (Backtracking
over fewer groups can never help these patterns: a position before a parsed
group starts with whitespace or a comma, which neither `\]` nor `\s*\]` can
match.)  The fuel is bounded by the remaining length. -/
def parseGroups : Nat → Str → List Nat × Str
  | 0, s => ([], s)
  | fuel + 1, s =>
    match s.dropWhile (fun c => isSpaceChar c) with
    | ',' :: r2 =>
      let r3 := r2.dropWhile (fun c => isSpaceChar c)
      let ds := r3.takeWhile (fun c => c.isDigit)
      let r4 := r3.dropWhile (fun c => c.isDigit)
      if ds.isEmpty then ([], s)
      else
        let rec2 := parseGroups fuel r4
        (digitsToNat ds :: rec2.1, rec2.2)
    | _ => ([], s)

/-- Try to match one citation marker at the head of `s`.
With `allowWS = false` this is pattern `\[(\d+(?:\s*,\s*\d+)*)\]`; with
`allowWS = true` it additionally allows whitespace after `[` and before `]`
(the second pattern).  Returns the numbers and the length of the match. -/
def tryMatch (allowWS : Bool) (s : Str) : Option (List Nat × Nat) :=
  match s with
  | '[' :: r0 =>
    let r1 := if allowWS then r0.dropWhile (fun c => isSpaceChar c) else r0
    let ds := r1.takeWhile (fun c => c.isDigit)
    let r2 := r1.dropWhile (fun c => c.isDigit)
    if ds.isEmpty then none
    else
      let g := parseGroups r2.length r2
      let r4 := if allowWS then g.2.dropWhile (fun c => isSpaceChar c) else g.2
      match r4 with
      | ']' :: r5 => some (digitsToNat ds :: g.1, s.length - r5.length)
      | _ => none
  | _ => none

/-- `re.finditer` over the text: at each position try the pattern; on a match
record `(start, end, numbers)` and resume after it, else advance one
character.  Fuel is bounded by the text length. -/
def scanPatAux (allowWS : Bool) : Nat → Str → Nat → List (Nat × Nat × List Nat)
  | 0, _, _ => []
  | fuel + 1, s, pos =>
    match s with
    | [] => []
    | _ :: rest =>
      match tryMatch allowWS s with
      | some g => (pos, pos + g.2, g.1) :: scanPatAux allowWS fuel (s.drop g.2) (pos + g.2)
      | none => scanPatAux allowWS fuel rest (pos + 1)

/-- All matches of one pattern over the text. -/
def scanPat (allowWS : Bool) (content : Str) : List (Nat × Nat × List Nat) :=
  scanPatAux allowWS content.length content 0

/-- Helper for `splitSent`: `skip` is true while the `\s+` run of a just-seen
delimiter is being consumed; `cur` is the current (reversed) token. -/
def splitSentAux : Bool → Str → Str → List Str
  | _, cur, [] => [cur.reverse]
  | skip, cur, c :: rest =>
    if skip && isSpaceChar c then splitSentAux true cur rest
    else if (c = '.' || c = '!' || c = '?') &&
        (match rest with | d :: _ => isSpaceChar d | [] => false) then
      cur.reverse :: splitSentAux true [] rest
    else splitSentAux false (c :: cur) rest

/-- `re.split(r'[.!?]\s+', s)`. -/
def splitSent (s : Str) : List Str := splitSentAux false [] s

/-- Does `s` start with `p`?  (Arguments: the candidate head `p`, then `s`.) -/
def startsWithStr : Str → Str → Bool
  | [], _ => true
  | _ :: _, [] => false
  | c :: cs, d :: ds => c = d && startsWithStr cs ds

/-- Python substring test `needle in hay`. -/
def hasSub (hay needle : Str) : Bool :=
  if startsWithStr needle hay then true
  else
    match hay with
    | [] => false
    | _ :: t => hasSub t needle

/-- The slice `content[s:e]`. -/
def sliceStr (content : Str) (s e : Nat) : Str := (content.drop s).take (e - s)

/-- Build the `[citations, sentence]` record for one match: context window of
100 characters either side (stripped), narrowed to the first sentence that
contains the matched text when its strip is non-empty, else the whole
context. -/
def mkRecord (content : Str) (m : Nat × Nat × List Nat) : List Nat × Str :=
  let mtext := sliceStr content m.1 m.2.1
  let wstart := m.1 - 100
  let wend := min content.length (m.2.1 + 100)
  let context := stripWS (sliceStr content wstart wend)
  let target :=
    match (splitSent context).find? (fun sent => hasSub sent mtext) with
    | some sent => stripWS sent
    | none => []
  (m.2.2, if target.isEmpty then context else target)

/-- Ascending sort of the marker numbers: the dedup key
`tuple(sorted(citations))`. -/
def sortNats (l : List Nat) : List Nat := List.insertionSort (· ≤ ·) l

/-- First-occurrence-wins dedup over the sorted-tuple key
(`seen_citations` accumulates the keys already kept). -/
def firstWins (seen : List (List Nat)) : List (List Nat × Str) → List (List Nat × Str)
  | [] => []
  | r :: rest =>
    if sortNats r.1 ∈ seen then firstWins seen rest
    else r :: firstWins (sortNats r.1 :: seen) rest

/-- The sort key `min(x[0])` of a record. -/
def minKey (r : List Nat × Str) : Nat := (r.1.min?).getD 0

/-- The ordering used by `unique_results.sort(key=lambda x: min(x[0]))`. -/
def markerLE (x y : List Nat × Str) : Prop := minKey x ≤ minKey y

instance : DecidableRel markerLE := fun _ _ => Nat.decLe _ _

instance : IsTotal (List Nat × Str) markerLE := ⟨fun _ _ => Nat.le_total _ _⟩

instance : IsTrans (List Nat × Str) markerLE := ⟨fun _ _ _ => Nat.le_trans⟩

/-- utils.extract_citations_with_regex: run both patterns, build the records,
dedup by sorted tuple (first wins), stable-sort by minimum number. -/
def extract_citations_with_regex (content : Str) : List (List Nat × Str) :=
  List.insertionSort markerLE
    (firstWins []
      ((scanPat false content).map (mkRecord content) ++
        (scanPat true content).map (mkRecord content)))

/-!
## get_citation_markers (primary pass + model-assisted fallback)
-/

/-- The flattened citation numbers of a record list (used both by the
reconciler and by the merge step of `get_citation_markers`). -/
def citedNumbers (markers : List (List Nat × Str)) : List Nat :=
  markers.foldl (fun acc m => acc ++ m.1) []

/-- Helper for `mergeResults`: add an AI record only when none of its numbers
is already present; `existing` accumulates the numbers seen so far. -/
def mergeAux (existing : List Nat) : List (List Nat × Str) → List (List Nat × Str)
  | [] => []
  | r :: rest =>
    if r.1.any (fun c => existing.contains c) then mergeAux existing rest
    else r :: mergeAux (existing ++ r.1) rest

/-- The first-source-wins merge of the fallback pass into the primary
results. -/
def mergeResults (regexResults aiResults : List (List Nat × Str)) :
    List (List Nat × Str) :=
  regexResults ++ mergeAux (citedNumbers regexResults) aiResults

/-- utils.get_citation_markers with its effect boundaries made explicit:
`primary` is the outcome of the primary pass (an `error` models any exception
caught by the outer handler), `aiRaw` the parsed chunk results of the
model-assisted pass (an `error` models any model-call failure caught by the
inner handler). -/
def get_citation_markers (content : Str)
    (primary : Except Str (List (List Nat × Str)))
    (aiRaw : Except Str (List (List Nat × Str))) : List (List Nat × Str) :=
  if content.isEmpty then []
  else
    match primary with
    | .error _ => []
    | .ok regexResults =>
      if 10 < regexResults.length then regexResults
      else
        match aiRaw with
        | .error _ => regexResults
        | .ok aiResults => mergeResults regexResults aiResults

/-!
## The reference reconciler (agent.verify_citations_referenced / app.py)
-/

/-- `missing = set(range(1, len(titles)+1)) - set(citations)`. -/
def missingNumbers (titles : List Str) (markers : List (List Nat × Str)) : Finset Nat :=
  Finset.Icc 1 titles.length \ (citedNumbers markers).toFinset

/-- The duplicated numbers: `Counter` entries with count above one. -/
def duplicateNumbers (markers : List (List Nat × Str)) : Finset Nat :=
  (citedNumbers markers).toFinset.filter (fun n => 1 < (citedNumbers markers).count n)

/-!
## The citation verifier
-/

/-- The verdict a response classifies to. -/
inductive Verdict
  | consistent
  | inconsistent
  | ambiguous
deriving DecidableEq

/-- The literal token `<是>`. -/
def yesToken : Str := ['<', '是', '>']

/-- The character `否`. -/
def noChar : Str := ['否']

/-- The opening markup `<否:`. -/
def noOpen : Str := ['<', '否', ':']

/-- agent.verify_citation_sentences classification:
`if "<是>" == response: ... elif "否" in response: ... else: ...`
(note the exact equality on the first branch). -/
def classify_hw (response : Str) : Verdict :=
  if response = yesToken then .consistent
  else if hasSub response noChar then .inconsistent
  else .ambiguous

/-- app.py per-response classification:
`if '<是>' in result: ... elif '否' in result: ... else: ...`
(substring tests with elif precedence). -/
def classify_app (result : Str) : Verdict :=
  if hasSub result yesToken then .consistent
  else if hasSub result noChar then .inconsistent
  else .ambiguous

/-- Helper for `removeAll`; fuel is bounded by the string length (every step
consumes at least one character because the needle is non-empty). -/
def removeAllAux (needle : Str) : Nat → Str → Str
  | 0, s => s
  | fuel + 1, s =>
    if startsWithStr needle s && !needle.isEmpty then
      removeAllAux needle fuel (s.drop needle.length)
    else
      match s with
      | [] => []
      | c :: t => c :: removeAllAux needle fuel t

/-- Python `s.replace(needle, '')`: delete every (left-to-right,
non-overlapping) occurrence of the needle. -/
def removeAll (needle s : Str) : Str := removeAllAux needle s.length s

/-- The extracted justification
`result.replace('<否:', '').replace('>', '').strip()`. -/
def stripReason (result : Str) : Str :=
  stripWS (removeAll ['>'] (removeAll noOpen result))

/-- The outcome status recorded in a verification result dictionary. -/
inductive VStatus
  | verified
  | skipped
  | error
deriving DecidableEq

/-- One verification result record; `result` is `r.get('result', '')`, the
empty string when the record carries no result field. -/
structure VRecord where
  status : VStatus
  result : Str
deriving DecidableEq

/-- `sum(1 for r in rs if r['status'] == 'verified')`. -/
def verifiedCount (rs : List VRecord) : Nat :=
  rs.countP (fun r => r.status == VStatus.verified)

/-- `sum(1 for r in rs if r['status'] == 'verified' and '<是>' in r.get('result', ''))`. -/
def lwCorrectCount (rs : List VRecord) : Nat :=
  rs.countP (fun r => r.status == VStatus.verified && hasSub r.result yesToken)

/-- `sum(1 for r in rs if r['status'] == 'verified' and '否' in r.get('result', ''))`. -/
def lwIncorrectCount (rs : List VRecord) : Nat :=
  rs.countP (fun r => r.status == VStatus.verified && hasSub r.result noChar)

/-- Verified records classifying (with elif precedence) to verdict `v`. -/
def verdictCount (v : Verdict) (rs : List VRecord) : Nat :=
  rs.countP (fun r => r.status == VStatus.verified && classify_app r.result == v)

/-- The lightweight accuracy report (agent.py and app.py):
`(correct_count / verified_count) * 100` when `verified_count > 0`, else no
report. -/
def lw_accuracy (rs : List VRecord) : Option ℚ :=
  if 0 < verifiedCount rs then
    some ((lwCorrectCount rs : ℚ) / (verifiedCount rs : ℚ) * 100)
  else none

/-- Checked responses classified inconsistent by the heavyweight chain
(`bad_count`). -/
def hwBadCount (responses : List Str) : Nat :=
  responses.countP (fun r => classify_hw r == Verdict.inconsistent)

/-- The heavyweight accuracy report (agent.verify_citation_sentences):
`((checked_count - bad_count) / checked_count) * 100` when any marker was
checked, else no report; `responses` are the model responses of the checked
markers. -/
def hw_accuracy (responses : List Str) : Option ℚ :=
  if 0 < responses.length then
    some (((responses.length : ℚ) - (hwBadCount responses : ℚ)) /
      (responses.length : ℚ) * 100)
  else none

/-- `cited_titles = [titles[i-1] for i in citation if 1 <= i <= len(titles)]`
from utils.batch_verify_citations_lightweight. -/
def citedTitles (citation : List Nat) (titles : List Str) : List Str :=
  (citation.filter (fun i => 1 ≤ i && i ≤ titles.length)).map
    (fun i => titles.getD (i - 1) [])

/-- One marker of utils.batch_verify_citations_lightweight with the external
calls abstracted: `hasMeta t` says whether the arXiv metadata lookup finds a
sufficiently similar record for reference title `t`, `modelOk` whether the
model call returns rather than raises.  Returns the outcome status together
with whether the language model was invoked for this marker. -/
def lwVerifyOne (hasMeta : Str → Bool) (modelOk : Bool)
    (citation : List Nat) (titles : List Str) : VStatus × Bool :=
  let cited := citedTitles citation titles
  if cited.isEmpty then (VStatus.skipped, false)
  else if (cited.filter hasMeta).isEmpty then (VStatus.skipped, false)
  else if modelOk then (VStatus.verified, true)
  else (VStatus.error, true)

/-!
## Concrete example data used by the claim witnesses
-/

/-- The query title aa bb cc dd ee. -/
def exTitle : Str := ['a', 'a', ' ', 'b', 'b', ' ', 'c', 'c', ' ', 'd', 'd', ' ', 'e', 'e']

/-- A candidate scoring far below the threshold against `exTitle`. -/
def lowCand : Str := ['z', 'z', ' ', 'z', 'z']

/-- A candidate scoring above the threshold (but below 1) against `exTitle`. -/
def midCand : Str :=
  ['a', 'a', ' ', 'b', 'b', ' ', 'c', 'c', ' ', 'd', 'd', ' ', 'e', 'e', ' ', 'f', 'f']

/-- The best candidate: the title itself (score 1). -/
def topCand : Str := exTitle

/-- First string of a pair whose blended score is exactly 4/5. -/
def qqTitle : Str := ['q', 'q', ' ', 'w', 'w', ' ', 'e', 'e', ' ', 'r', 'r', ' ', 't', 't']

/-- Second string of the pair: the same words minus one, in reverse order. -/
def revTitle : Str := ['t', 't', ' ', 'r', 'r', ' ', 'e', 'e', ' ', 'w', 'w']

/-- A response containing the token <是> with extra text around it. -/
def yesPlus : Str := ['x', '<', '是', '>']

/-- The model response <否: missing overlap> of the spec example. -/
def noExample : Str :=
  ['<', '否', ':', ' ', 'm', 'i', 's', 's', 'i', 'n', 'g', ' ', 'o', 'v', 'e', 'r',
    'l', 'a', 'p', '>']

/-- The extracted reason of the spec example. -/
def reasonExample : Str :=
  ['m', 'i', 's', 's', 'i', 'n', 'g', ' ', 'o', 'v', 'e', 'r', 'l', 'a', 'p']

/-- Three verified outcomes: one consistent, one inconsistent, one ambiguous. -/
def rsExample : List VRecord :=
  [⟨VStatus.verified, yesToken⟩,
    ⟨VStatus.verified, ['<', '否', ':', ' ', 'x', '>']⟩,
    ⟨VStatus.verified, ['m', 'a', 'y', 'b', 'e']⟩]

/-- A reference title for the range examples. -/
def tOne : Str := ['t', '1']

/-- Five reference titles. -/
def fiveTitles : List Str :=
  [['T', '1'], ['T', '2'], ['T', '3'], ['T', '4'], ['T', '5']]

/-- Markers covering the citation numbers 1, 2, 2, 4. -/
def exMarkers : List (List Nat × Str) := [([1, 2], ['s', '1']), ([2, 4], ['s', '2'])]

/-- A document text containing the markers [3, 1] and [1,3]. -/
def dupText : Str :=
  ['[', '3', ',', ' ', '1', ']', ' ', 'x', ' ', '[', '1', ',', '3', ']']

/-- A one-marker primary-pass result. -/
def smallMarkers : List (List Nat × Str) := [([1], ['s'])]

/-!
## Helper lemmas
-/

/-- A response classifies consistent under the app.py chain exactly when it
contains the token <是>. -/
lemma classify_app_consistent_iff (s : Str) :
    (classify_app s == Verdict.consistent) = hasSub s yesToken := by
  cases h : hasSub s yesToken
  · cases h2 : hasSub s noChar <;> simp [classify_app, h, h2]
  · simp [classify_app, h]

/-- The lightweight correct count is the count of consistent verdicts. -/
lemma lwCorrect_eq_consistent (rs : List VRecord) :
    lwCorrectCount rs = verdictCount Verdict.consistent rs := by
  unfold lwCorrectCount verdictCount
  simp only [classify_app_consistent_iff]

/-- The verified outcomes split into the three verdict classes. -/
lemma verified_partition (rs : List VRecord) :
    verifiedCount rs =
      verdictCount Verdict.consistent rs + verdictCount Verdict.inconsistent rs +
        verdictCount Verdict.ambiguous rs := by
  unfold verifiedCount verdictCount
  induction rs with
  | nil => rfl
  | cons r rest ih =>
    cases hv : (r.status == VStatus.verified) <;>
      cases hcl : classify_app r.result <;>
        simp [List.countP_cons, hv, hcl, ih] <;> omega

/-- The records kept by firstWins have pairwise distinct sorted-tuple keys,
none of them among the keys already seen. -/
lemma firstWins_keys (seen : List (List Nat)) (l : List (List Nat × Str)) :
    ((firstWins seen l).map (fun r => sortNats r.1)).Nodup ∧
    ∀ k ∈ (firstWins seen l).map (fun r => sortNats r.1), k ∉ seen := by
  induction l generalizing seen with
  | nil => simp [firstWins]
  | cons r rest ih =>
    by_cases h : sortNats r.1 ∈ seen
    · simpa [firstWins, h] using ih seen
    · have hrec := ih (sortNats r.1 :: seen)
      constructor
      · simp only [firstWins, if_neg h, List.map_cons, List.nodup_cons]
        exact ⟨fun hmem => (hrec.2 _ hmem) (List.mem_cons_self _ _), hrec.1⟩
      · simp only [firstWins, if_neg h, List.map_cons]
        intro k hk
        rcases List.mem_cons.mp hk with hk | hk
        · subst hk; exact h
        · exact fun hks => (hrec.2 _ hk) (List.mem_cons_of_mem _ hks)

/-!
## The claims
-/

/-- C1: the resolver accepts the first candidate whose blended score exceeds
the threshold and stops there, regardless of better candidates later in
provider order; agent.py's download loop does the same provided the accepted
candidate's download succeeds. -/
theorem C1_resolver_accepts_first (pre : List Str) (c : Str) (post : List Str)
    (title : Str) (hpre : ∀ r ∈ pre, ¬ (4 / 5 : ℚ) < max_similarity r title)
    (hc : (4 / 5 : ℚ) < max_similarity c title) :
    resolveFirstMatch (pre ++ c :: post) title = some c ∧
    ∀ dl : Str → Bool, dl c = true →
      downloadPick dl (pre ++ c :: post) title = some c := by
  induction pre with
  | nil =>
    refine ⟨?_, fun dl hdl => ?_⟩
    · simp [resolveFirstMatch, app_is_similar, hc]
    · simp [downloadPick, agent_is_similar, hc, hdl]
  | cons r rs ih =>
    have hr : ¬ (4 / 5 : ℚ) < max_similarity r title := hpre r (by simp)
    have hrest := ih (fun x hx => hpre x (by simp [hx]))
    refine ⟨?_, fun dl hdl => ?_⟩
    · simpa [resolveFirstMatch, app_is_similar, hr] using hrest.1
    · simpa [downloadPick, agent_is_similar, hr] using hrest.2 dl hdl

set_option maxRecDepth 100000 in
/-- Witness for C1: with candidates ordered [low, above-threshold, best],
the second is returned, not the third, whose score is strictly higher. -/
theorem C1_resolver_accepts_first_witness :
    resolveFirstMatch [lowCand, midCand, topCand] exTitle = some midCand ∧
    max_similarity midCand exTitle < max_similarity topCand exTitle :=
  ⟨(C1_resolver_accepts_first [lowCand] midCand [topCand] exTitle
      (by with_unfolding_all decide) (by with_unfolding_all decide)).1,
    by with_unfolding_all decide⟩

/-- C2 counterexample: a response containing the token <是> with extra text
is classified ambiguous, not consistent, by the heavyweight verifier, which
compares with exact equality rather than a substring test. -/
theorem C2_substring_claim_fails :
    hasSub yesPlus yesToken = true ∧ classify_hw yesPlus = Verdict.ambiguous := by
  decide

/-- C2 amended: heavyweight consistency requires the response to equal <是>
exactly; otherwise a 否 substring means inconsistent and anything else is
ambiguous (a retained verdict); the app.py classification does use the
substring test with <是> taking precedence; and the inconsistent reason is
the response with the <否: and > markup removed and stripped. -/
theorem C2_classification (r : Str) :
    (classify_hw r = Verdict.consistent ↔ r = yesToken) ∧
    (r ≠ yesToken → (classify_hw r = Verdict.inconsistent ↔ hasSub r noChar = true)) ∧
    (r ≠ yesToken → hasSub r noChar = false → classify_hw r = Verdict.ambiguous) ∧
    (hasSub r yesToken = true → classify_app r = Verdict.consistent) ∧
    stripReason noExample = reasonExample := by
  refine ⟨?_, fun h => ?_, fun h h2 => ?_, fun h => ?_, by decide⟩
  · by_cases h : r = yesToken
    · simp [classify_hw, h]
    · cases h2 : hasSub r noChar <;> simp [classify_hw, h, h2]
  · cases h2 : hasSub r noChar <;> simp [classify_hw, h, h2]
  · simp [classify_hw, h, h2]
  · simp [classify_app, h]

/-- Witness for C2: the amended classification applied to the response
<否: x> yields the inconsistent verdict. -/
theorem C2_classification_witness :
    classify_hw ['<', '否', ':', ' ', 'x', '>'] = Verdict.inconsistent :=
  ((C2_classification ['<', '否', ':', ' ', 'x', '>']).2.1 (by decide)).mpr (by decide)

/-- C3 counterexample: with one consistent, one inconsistent and one
ambiguous verified outcome, the reported accuracy proportion is 1/3 in the
lightweight paths and 2/3 in the heavyweight path, never the claimed
consistent/(consistent+inconsistent) = 1/2: the ambiguous outcome stays in
the denominator. -/
theorem C3_denominator_counterexample :
    verdictCount Verdict.consistent rsExample = 1 ∧
    verdictCount Verdict.inconsistent rsExample = 1 ∧
    lw_accuracy rsExample = some ((1 : ℚ) / 3 * 100) ∧
    hw_accuracy (rsExample.map VRecord.result) = some ((2 : ℚ) / 3 * 100) ∧
    ((1 : ℚ) / 3 ≠ 1 / 2) ∧ ((2 : ℚ) / 3 ≠ 1 / 2) := by
  with_unfolding_all decide

/-- C3 amended: both accuracy reports divide by the full verified count, so
ambiguous outcomes are counted in the denominator (the heavyweight numerator
even counts them as correct); the division is skipped exactly when nothing
was verified. -/
theorem C3_accuracy_over_all_verified (rs : List VRecord) (responses : List Str) :
    (lw_accuracy rs = none ↔ verifiedCount rs = 0) ∧
    verifiedCount rs =
      verdictCount Verdict.consistent rs + verdictCount Verdict.inconsistent rs +
        verdictCount Verdict.ambiguous rs ∧
    (0 < verifiedCount rs →
      lw_accuracy rs =
        some ((verdictCount Verdict.consistent rs : ℚ) / (verifiedCount rs : ℚ) * 100)) ∧
    (hw_accuracy responses = none ↔ responses = []) ∧
    (responses ≠ [] →
      hw_accuracy responses =
        some (((responses.length : ℚ) - (hwBadCount responses : ℚ)) /
          (responses.length : ℚ) * 100)) := by
  refine ⟨?_, verified_partition rs, fun h => ?_, ?_, fun h => ?_⟩
  · by_cases h : 0 < verifiedCount rs
    · simp [lw_accuracy, h]; omega
    · simp [lw_accuracy, h]; omega
  · rw [lw_accuracy, if_pos h, lwCorrect_eq_consistent]
  · constructor
    · intro hx
      by_cases h : 0 < responses.length
      · simp [hw_accuracy, h] at hx
      · exact List.length_eq_zero.mp (by omega)
    · intro hx
      subst hx
      rfl
  · rw [hw_accuracy, if_pos (List.length_pos.mpr h)]

/-- Witness for C3 at the three-outcome example. -/
theorem C3_accuracy_over_all_verified_witness :
    0 < verifiedCount rsExample ∧
    lw_accuracy rsExample =
      some ((verdictCount Verdict.consistent rsExample : ℚ) /
        (verifiedCount rsExample : ℚ) * 100) :=
  ⟨by decide, (C3_accuracy_over_all_verified rsExample
      (rsExample.map VRecord.result)).2.2.1 (by decide)⟩

/-- C4 counterexample: a marker citing [1, 5] against a single-title list
has an out-of-range number, yet it is not skipped: the in-range number
survives the filter and the marker is sent to the model. -/
theorem C4_any_out_of_range_counterexample :
    ¬ (1 ≤ 5 ∧ 5 ≤ List.length [tOne]) ∧
    lwVerifyOne (fun _ => true) true [1, 5] [tOne] = (VStatus.verified, true) := by
  decide

/-- C4 amended: the lightweight verifier skips for range reasons only when
every cited number is out of range (out-of-range numbers are merely dropped);
whenever the model is called some cited number is in range. -/
theorem C4_skip_only_all_out_of_range (hasMeta : Str → Bool) (modelOk : Bool)
    (citation : List Nat) (titles : List Str) :
    (citedTitles citation titles = [] ↔
      ∀ n ∈ citation, n < 1 ∨ titles.length < n) ∧
    ((∀ n ∈ citation, n < 1 ∨ titles.length < n) →
      lwVerifyOne hasMeta modelOk citation titles = (VStatus.skipped, false)) ∧
    ((lwVerifyOne hasMeta modelOk citation titles).2 = true →
      ∃ n ∈ citation, 1 ≤ n ∧ n ≤ titles.length) := by
  have h1 : citedTitles citation titles = [] ↔
      ∀ n ∈ citation, n < 1 ∨ titles.length < n := by
    unfold citedTitles
    rw [List.map_eq_nil_iff, List.filter_eq_nil_iff]
    constructor
    · intro h n hn
      have := h n hn
      simp only [Bool.and_eq_true, decide_eq_true_eq, not_and] at this
      omega
    · intro h n hn
      have := h n hn
      simp only [Bool.and_eq_true, decide_eq_true_eq, not_and]
      omega
  have h2 : (∀ n ∈ citation, n < 1 ∨ titles.length < n) →
      lwVerifyOne hasMeta modelOk citation titles = (VStatus.skipped, false) := by
    intro h
    simp [lwVerifyOne, h1.mpr h]
  refine ⟨h1, h2, fun hcall => ?_⟩
  by_cases hc : citedTitles citation titles = []
  · exfalso
    simp [lwVerifyOne, hc] at hcall
  · have hne : ¬ ∀ n ∈ citation, n < 1 ∨ titles.length < n := fun h => hc (h1.mpr h)
    push_neg at hne
    obtain ⟨n, hn, h3, h4⟩ := hne
    exact ⟨n, hn, by omega, by omega⟩

/-- Witness for C4: a marker all of whose numbers are out of range is
skipped without a model call. -/
theorem C4_skip_only_all_out_of_range_witness :
    lwVerifyOne (fun _ => true) true [0, 7] [tOne] = (VStatus.skipped, false) :=
  (C4_skip_only_all_out_of_range (fun _ => true) true [0, 7] [tOne]).2.1 (by decide)

/-- C5: the reconciler computes the missing set and the duplicate set from
the flattened citation numbers; with empty markers everything is missing and
nothing duplicated; with five titles and markers covering 1, 2, 2, 4 the
missing set is {3, 5} and 2 is the only duplicate, cited twice. -/
theorem C5_reconciler_sets (titles : List Str) (markers : List (List Nat × Str)) :
    (∀ n, n ∈ missingNumbers titles markers ↔
      1 ≤ n ∧ n ≤ titles.length ∧ n ∉ citedNumbers markers) ∧
    (∀ n, n ∈ duplicateNumbers markers ↔ 1 < (citedNumbers markers).count n) ∧
    (markers = [] →
      missingNumbers titles markers = Finset.Icc 1 titles.length ∧
      duplicateNumbers markers = ∅) ∧
    missingNumbers fiveTitles exMarkers = {3, 5} ∧
    duplicateNumbers exMarkers = {2} ∧
    (citedNumbers exMarkers).count 2 = 2 := by
  refine ⟨fun n => ?_, fun n => ?_, fun h => ?_, by decide, by decide, by decide⟩
  · simp [missingNumbers, Finset.mem_sdiff, Finset.mem_Icc, List.mem_toFinset, and_assoc]
  · constructor
    · intro hmem
      simp only [duplicateNumbers, Finset.mem_filter] at hmem
      exact hmem.2
    · intro hcount
      simp only [duplicateNumbers, Finset.mem_filter, List.mem_toFinset]
      exact ⟨List.count_pos_iff.mp (by omega), hcount⟩
  · subst h
    exact ⟨by simp [missingNumbers, citedNumbers], by decide⟩

/-- Witness for C5 with empty markers. -/
theorem C5_reconciler_sets_witness :
    missingNumbers fiveTitles [] = Finset.Icc 1 (List.length fiveTitles) ∧
    duplicateNumbers ([] : List (List Nat × Str)) = ∅ :=
  (C5_reconciler_sets fiveTitles []).2.2.1 rfl

/-- C6: the primary extraction pass yields markers with pairwise distinct
sorted-number keys (first occurrence wins), sorted by minimum citation
number ascending; the two bracket orders [3, 1] and [1,3] collapse to one
marker keeping the first occurrence's numbers. -/
theorem C6_extract_dedup_and_sort (content : Str) :
    List.Sorted markerLE (extract_citations_with_regex content) ∧
    ((extract_citations_with_regex content).map (fun r => sortNats r.1)).Nodup ∧
    (extract_citations_with_regex dupText).map (fun r => r.1) = [[3, 1]] := by
  refine ⟨List.sorted_insertionSort markerLE _, ?_, by decide⟩
  have hperm := List.perm_insertionSort markerLE
    (firstWins [] ((scanPat false content).map (mkRecord content) ++
      (scanPat true content).map (mkRecord content)))
  exact ((hperm.map (fun r => sortNats r.1)).nodup_iff).mpr (firstWins_keys [] _).1

/-- C7: get_citation_markers never propagates a failure: a primary-pass
failure yields the empty list, empty input yields the empty list, a
model-call failure in the fallback yields the primary results unchanged, a
primary pass with more than ten markers short-circuits, and in every case
the result is the empty list, the primary results, or the merged results. -/
theorem C7_markers_fail_soft (content : Str) (e1 e2 : Str)
    (regexResults : List (List Nat × Str))
    (primary aiRaw : Except Str (List (List Nat × Str))) :
    get_citation_markers content (Except.error e1) aiRaw = [] ∧
    get_citation_markers [] primary aiRaw = [] ∧
    (content ≠ [] → regexResults.length ≤ 10 →
      get_citation_markers content (Except.ok regexResults) (Except.error e2) =
        regexResults) ∧
    (content ≠ [] → 10 < regexResults.length →
      get_citation_markers content (Except.ok regexResults) aiRaw = regexResults) ∧
    (get_citation_markers content primary aiRaw = [] ∨
      ∃ rr, primary = Except.ok rr ∧
        (get_citation_markers content primary aiRaw = rr ∨
          ∃ al, aiRaw = Except.ok al ∧
            get_citation_markers content primary aiRaw = mergeResults rr al)) := by
  refine ⟨?_, rfl, fun hc hlen => ?_, fun hc hlen => ?_, ?_⟩
  · cases content <;> rfl
  · cases content with
    | nil => exact absurd rfl hc
    | cons c t => simp [get_citation_markers, Nat.not_lt.mpr hlen]
  · cases content with
    | nil => exact absurd rfl hc
    | cons c t => simp [get_citation_markers, hlen]
  · by_cases h : content.isEmpty = true
    · exact Or.inl (by simp [get_citation_markers, h])
    · cases primary with
      | error e => exact Or.inl (by simp [get_citation_markers, h])
      | ok rr =>
        by_cases hl : 10 < rr.length
        · exact Or.inr ⟨rr, rfl, Or.inl (by simp [get_citation_markers, h, hl])⟩
        · cases aiRaw with
          | error e =>
            exact Or.inr ⟨rr, rfl, Or.inl (by simp [get_citation_markers, h, hl])⟩
          | ok al =>
            exact Or.inr ⟨rr, rfl, Or.inr ⟨al, rfl,
              by simp [get_citation_markers, h, hl]⟩⟩

/-- Witness for C7: nonempty document, a one-marker primary pass and a
failing model pass return the primary results unchanged. -/
theorem C7_markers_fail_soft_witness :
    get_citation_markers ['x'] (Except.ok smallMarkers) (Except.error []) =
      smallMarkers :=
  (C7_markers_fail_soft ['x'] [] [] smallMarkers (Except.ok smallMarkers)
      (Except.error [])).2.2.1 (by decide) (by decide)

/-- C8: agent.py's is_similar holds exactly when the blended score strictly
exceeds the threshold; when the score equals the threshold the predicate is
false. -/
theorem C8_match_strict_threshold (a b : Str) (t : ℚ) :
    (agent_is_similar a b t = true ↔ t < max_similarity a b) ∧
    (max_similarity a b = t → agent_is_similar a b t = false) := by
  refine ⟨by simp [agent_is_similar], fun h => ?_⟩
  simp [agent_is_similar, h]

set_option maxRecDepth 100000 in
/-- Witness for C8 at a pair whose blended score is exactly the default
threshold 0.8. -/
theorem C8_match_strict_threshold_witness :
    max_similarity qqTitle revTitle = 4 / 5 ∧
    agent_is_similar qqTitle revTitle (4 / 5) = false :=
  ⟨by with_unfolding_all decide,
    (C8_match_strict_threshold qqTitle revTitle (4 / 5)).2 (by with_unfolding_all decide)⟩

/-- C9 counterexample: the blended score is not symmetric; difflib's greedy
block matching finds different totals for the two argument orders of this
pair, and the word-overlap signal (0 here) does not mask the difference. -/
theorem C9_blended_score_asymmetric :
    max_similarity ['a', 'b', 'c', 'b'] ['b', 'c', 'a', 'b'] ≠
      max_similarity ['b', 'c', 'a', 'b'] ['a', 'b', 'c', 'b'] := by
  with_unfolding_all decide

/-- C9 amended: the Jaccard word-overlap component is symmetric; the blended
score as a whole is not, because the sequence-ratio components are
order-sensitive. -/
theorem C9_word_overlap_symm (a b : Str) : word_overlap a b = word_overlap b a := by
  unfold word_overlap
  by_cases h1 : 0 < (wordsOf a).card <;> by_cases h2 : 0 < (wordsOf b).card <;>
    simp [h1, h2, Finset.inter_comm, Finset.union_comm]

/-- C10: the three is_similar implementations agree: app.py and 1.py return
identical pairs, the returned score is the shared blended maximum, and
agent.py's boolean equals the boolean component of the pair. -/
theorem C10_three_variants_agree (a b : Str) (t : ℚ) :
    app_is_similar a b t = onepy_is_similar a b t ∧
    (app_is_similar a b t).2 = max_similarity a b ∧
    agent_is_similar a b t = (app_is_similar a b t).1 :=
  ⟨rfl, rfl, rfl⟩

end RefAgent
